import Mathlib

/-!
Verification of the tool-dispatch gateway of the google-sheets-mcp-server
repository (src/src/index.ts together with the `GoogleSheetsClient` class of
src/unnamed/part_000, the file imported as `./google-sheets-client.js`).

The embedding is shallow: JavaScript runtime values are modelled by `JValue`
(with an explicit `undef` constructor for JavaScript's `undefined`), the
remote Google API endpoints reached through `googleapis` are an oracle
(`Backend`) whose operations either return a response payload (`Except.ok`,
the `response.data` the source reads) or throw (`Except.error`, carrying the
thrown error's `message` string — thrown errors are modelled by their message
alone, which is the only part the source ever reads on its normal paths).
Each method of `GoogleSheetsClient` is translated as a pure function of the
oracle, and the `CallToolRequestSchema` handler of index.ts becomes
`handleCall`, with its `try`/`catch` modelled by totalising the
`Except`-valued `dispatch`.
-/

namespace GSheets

/-- JavaScript runtime values as they flow through the gateway: `undef` is
JavaScript's `undefined` (an absent argument), numbers are modelled by `Int`
(every number the gateway itself manipulates is an integer). -/
inductive JValue where
  | undef : JValue
  | null : JValue
  | bool (b : Bool) : JValue
  | num (n : Int) : JValue
  | str (s : String) : JValue
  | arr (xs : List JValue) : JValue
  | obj (fields : List (String × JValue)) : JValue

/-- True exactly on JavaScript `undefined`. -/
def JValue.isUndef : JValue → Bool
  | JValue.undef => true
  | _ => false

/-- A TypeScript default parameter value: it replaces the argument exactly
when the argument is `undefined`. -/
def jsDefault (v d : JValue) : JValue :=
  if v.isUndef then d else v

/-- JavaScript truthiness of a value. -/
def jsTruthy : JValue → Bool
  | JValue.undef => false
  | JValue.null => false
  | JValue.bool b => b
  | JValue.num n => n != 0
  | JValue.str s => s != ""
  | JValue.arr _ => true
  | JValue.obj _ => true

/-- The `.length` property: arrays and strings have one, everything else
yields `undefined` (modelled as `none`). -/
def jsLength : JValue → Option Int
  | JValue.arr xs => some (xs.length : Int)
  | JValue.str s => some (s.length : Int)
  | _ => none

/-- Property access `v[k]` on a response payload; absent keys (and access on
non-objects) give `undefined`. -/
def jget (v : JValue) (k : String) : JValue :=
  match v with
  | JValue.obj fs => (fs.lookup k).getD JValue.undef
  | _ => JValue.undef

/-- Single-quote character, used to build the Drive query strings of the
source without a bare apostrophe in a literal. -/
def sq : String := (Char.ofNat 39).toString

/-- Lower-case hexadecimal digit, for `\u00XX` escapes. -/
def hexDigit (n : Nat) : Char :=
  if n < 10 then Char.ofNat (48 + n) else Char.ofNat (87 + n)

/-- JSON string escaping as performed by `JSON.stringify`. -/
def escapeChar (c : Char) : String :=
  if c = Char.ofNat 34 then "\\\""
  else if c = Char.ofNat 92 then "\\\\"
  else if c = Char.ofNat 10 then "\\n"
  else if c = Char.ofNat 13 then "\\r"
  else if c = Char.ofNat 9 then "\\t"
  else if c = Char.ofNat 8 then "\\b"
  else if c = Char.ofNat 12 then "\\f"
  else if c.toNat < 32 then
    "\\u00" ++ (hexDigit (c.toNat / 16)).toString ++ (hexDigit (c.toNat % 16)).toString
  else c.toString

/-- A JSON string literal: quoted and escaped. -/
def jsonQuote (s : String) : String :=
  "\"" ++ String.join (s.data.map escapeChar) ++ "\""

/-- Indentation prefix used by `JSON.stringify(·, null, 2)` at nesting depth
`level`. -/
def indentStr (level : Nat) : String :=
  String.mk (List.replicate (2 * level) (Char.ofNat 32))

mutual

/-- The serialization `JSON.stringify(v, null, 2)` of the source's success
path: `none` models `JSON.stringify` returning `undefined` (which it does
exactly on `undefined` input). -/
def renderJson (level : Nat) : JValue → Option String
  | JValue.undef => none
  | JValue.null => some "null"
  | JValue.bool b => some (if b then "true" else "false")
  | JValue.num n => some (toString n)
  | JValue.str s => some (jsonQuote s)
  | JValue.arr xs =>
      some (if xs.isEmpty then "[]"
        else "[\n" ++
          String.intercalate ",\n"
            ((renderElems (level + 1) xs).map (fun s => indentStr (level + 1) ++ s)) ++
          "\n" ++ indentStr level ++ "]")
  | JValue.obj fs =>
      some (if (renderFields (level + 1) fs).isEmpty then "\x7b\x7d"
        else "\x7b\n" ++
          String.intercalate ",\n"
            ((renderFields (level + 1) fs).map (fun s => indentStr (level + 1) ++ s)) ++
          "\n" ++ indentStr level ++ "\x7d")

/-- Array elements under `JSON.stringify`: an `undefined` element renders as
`null`. -/
def renderElems (level : Nat) : List JValue → List String
  | [] => []
  | x :: xs => ((renderJson level x).getD "null") :: renderElems level xs

/-- Object fields under `JSON.stringify`: a field whose value serializes to
`undefined` is dropped. -/
def renderFields (level : Nat) : List (String × JValue) → List String
  | [] => []
  | (k, v) :: fs =>
      (match renderJson level v with
       | some s => [jsonQuote k ++ ": " ++ s]
       | none => []) ++ renderFields level fs

end

/-- The `text` field produced by `JSON.stringify(result, null, 2)` on the
success path of every dispatch case (a string, or `undefined` when the
payload itself is `undefined`). -/
def jrender (j : JValue) : JValue :=
  match renderJson 0 j with
  | some s => JValue.str s
  | none => JValue.undef

mutual

/-- JavaScript template-literal interpolation of a value, as in the source's
backtick strings (URL and deletion message). -/
def jsTemplate : JValue → String
  | JValue.undef => "undefined"
  | JValue.null => "null"
  | JValue.bool b => if b then "true" else "false"
  | JValue.num n => toString n
  | JValue.str s => s
  | JValue.arr xs => String.intercalate "," (jsTemplateElems xs)
  | JValue.obj _ => "[object Object]"

/-- Array elements under JavaScript string conversion: `null` and `undefined`
elements become empty strings. -/
def jsTemplateElems : List JValue → List String
  | [] => []
  | x :: xs =>
      (match x with
       | JValue.undef => ""
       | JValue.null => ""
       | y => jsTemplate y) :: jsTemplateElems xs

end

/-- The external world reached by `GoogleSheetsClient`: one field per remote
`googleapis` endpoint the class calls (`Except.ok` is the `response.data` the
source reads, `Except.error m` a thrown error with message `m`), together
with the client's construction-time `projectId`, the auth-mode string its
`getAuthType` helper reports, and the clock read `new Date().toISOString()`
performs in `verifyConnection`. -/
structure Backend where
  spreadsheetsCreate : JValue → Except String JValue
  spreadsheetsGet : JValue → JValue → Except String JValue
  valuesUpdate : JValue → JValue → JValue → JValue → Except String JValue
  valuesAppend : JValue → JValue → JValue → JValue → Except String JValue
  valuesGet : JValue → JValue → Except String JValue
  valuesClear : JValue → JValue → Except String JValue
  batchUpdate : JValue → JValue → Except String JValue
  filesList : JValue → JValue → String → String → Except String JValue
  filesDelete : JValue → Except String JValue
  permissionsCreate : JValue → JValue → Except String JValue
  projectId : String
  authType : String
  nowISO : String

/-- The `{ error: error.message }` payload every catch block of
`GoogleSheetsClient` returns. -/
def errorPayload (m : String) : JValue :=
  JValue.obj [("error", JValue.str m)]

/-- The spreadsheet resource built by `createSpreadsheet`: the
`if (sheets && sheets.length > 0)` guard of the source, including the
`TypeError` a truthy non-array `sheets` with positive `.length` (a non-empty
string) raises at `sheets.map`, which the method's own catch absorbs. -/
def createResource (title sheets : JValue) : Except String JValue :=
  let base := [("properties", JValue.obj [("title", title)])]
  if jsTruthy sheets && ((jsLength sheets).getD 0 > 0) then
    match sheets with
    | JValue.arr xs =>
        Except.ok (JValue.obj (base ++
          [("sheets", JValue.arr (xs.map (fun sheetName =>
            JValue.obj [("properties", JValue.obj [("title", sheetName)])])))]))
    | _ => Except.error "sheets.map is not a function"
  else Except.ok (JValue.obj base)

/-- GoogleSheetsClient.createSpreadsheet. -/
def createSpreadsheet (b : Backend) (title sheets : JValue) : JValue :=
  match createResource title sheets with
  | Except.error m => errorPayload m
  | Except.ok resource =>
      match b.spreadsheetsCreate resource with
      | Except.error m => errorPayload m
      | Except.ok data =>
          JValue.obj
            [("spreadsheetId", jget data "spreadsheetId"),
             ("title", title),
             ("url", JValue.str ("https://docs.google.com/spreadsheets/d/" ++
               jsTemplate (jget data "spreadsheetId") ++ "/edit")),
             ("spreadsheet", data)]

/-- GoogleSheetsClient.getSpreadsheet; `includeGridData` defaults to `false`. -/
def getSpreadsheet (b : Backend) (spreadsheetId includeGridData : JValue) : JValue :=
  match b.spreadsheetsGet spreadsheetId (jsDefault includeGridData (JValue.bool false)) with
  | Except.ok d => d
  | Except.error m => errorPayload m

/-- GoogleSheetsClient.updateValues; `valueInputOption` defaults to
`USER_ENTERED`. -/
def updateValues (b : Backend) (spreadsheetId range values valueInputOption : JValue) : JValue :=
  match b.valuesUpdate spreadsheetId range
      (jsDefault valueInputOption (JValue.str "USER_ENTERED")) values with
  | Except.ok d => d
  | Except.error m => errorPayload m

/-- GoogleSheetsClient.appendValues; `valueInputOption` defaults to
`USER_ENTERED`. -/
def appendValues (b : Backend) (spreadsheetId range values valueInputOption : JValue) : JValue :=
  match b.valuesAppend spreadsheetId range
      (jsDefault valueInputOption (JValue.str "USER_ENTERED")) values with
  | Except.ok d => d
  | Except.error m => errorPayload m

/-- GoogleSheetsClient.getValues. -/
def getValues (b : Backend) (spreadsheetId range : JValue) : JValue :=
  match b.valuesGet spreadsheetId range with
  | Except.ok d => d
  | Except.error m => errorPayload m

/-- GoogleSheetsClient.clearValues. -/
def clearValues (b : Backend) (spreadsheetId range : JValue) : JValue :=
  match b.valuesClear spreadsheetId range with
  | Except.ok d => d
  | Except.error m => errorPayload m

/-- GoogleSheetsClient.addSheet. -/
def addSheet (b : Backend) (spreadsheetId sheetTitle : JValue) : JValue :=
  match b.batchUpdate spreadsheetId
      (JValue.arr [JValue.obj [("addSheet",
        JValue.obj [("properties", JValue.obj [("title", sheetTitle)])])]]) with
  | Except.ok d => d
  | Except.error m => errorPayload m

/-- GoogleSheetsClient.deleteSheet. -/
def deleteSheet (b : Backend) (spreadsheetId sheetId : JValue) : JValue :=
  match b.batchUpdate spreadsheetId
      (JValue.arr [JValue.obj [("deleteSheet", JValue.obj [("sheetId", sheetId)])]]) with
  | Except.ok d => d
  | Except.error m => errorPayload m

/-- Drive query string selecting spreadsheets, as in `listSpreadsheets`,
`searchSpreadsheets` and `verifyConnection`. -/
def spreadsheetMimeQ : String :=
  "mimeType=" ++ sq ++ "application/vnd.google-apps.spreadsheet" ++ sq

/-- The `fields` projection of `listSpreadsheets` and `searchSpreadsheets`. -/
def listFields : String :=
  "nextPageToken, files(id, name, createdTime, modifiedTime, webViewLink)"

/-- GoogleSheetsClient.listSpreadsheets; `pageSize` defaults to `10`. -/
def listSpreadsheets (b : Backend) (pageSize pageToken : JValue) : JValue :=
  match b.filesList (jsDefault pageSize (JValue.num 10)) pageToken
      spreadsheetMimeQ listFields with
  | Except.ok d =>
      JValue.obj [("spreadsheets", jget d "files"), ("nextPageToken", jget d "nextPageToken")]
  | Except.error m => errorPayload m

/-- GoogleSheetsClient.deleteSpreadsheet. -/
def deleteSpreadsheet (b : Backend) (spreadsheetId : JValue) : JValue :=
  match b.filesDelete spreadsheetId with
  | Except.ok _ =>
      JValue.obj
        [("success", JValue.bool true),
         ("spreadsheetId", spreadsheetId),
         ("message", JValue.str ("Spreadsheet " ++ jsTemplate spreadsheetId ++
           " successfully deleted"))]
  | Except.error m =>
      JValue.obj [("success", JValue.bool false), ("error", JValue.str m)]

/-- GoogleSheetsClient.shareSpreadsheet; `role` defaults to `reader`. -/
def shareSpreadsheet (b : Backend) (spreadsheetId emailAddress role : JValue) : JValue :=
  match b.permissionsCreate spreadsheetId
      (JValue.obj [("type", JValue.str "user"),
        ("role", jsDefault role (JValue.str "reader")),
        ("emailAddress", emailAddress)]) with
  | Except.ok d =>
      JValue.obj
        [("success", JValue.bool true),
         ("spreadsheetId", spreadsheetId),
         ("permission", d)]
  | Except.error m =>
      JValue.obj [("success", JValue.bool false), ("error", JValue.str m)]

/-- GoogleSheetsClient.searchSpreadsheets; `pageSize` defaults to `10`. -/
def searchSpreadsheets (b : Backend) (query pageSize pageToken : JValue) : JValue :=
  match b.filesList (jsDefault pageSize (JValue.num 10)) pageToken
      (spreadsheetMimeQ ++ " and name contains " ++ sq ++ jsTemplate query ++ sq)
      listFields with
  | Except.ok d =>
      JValue.obj [("spreadsheets", jget d "files"), ("nextPageToken", jget d "nextPageToken")]
  | Except.error m => errorPayload m

/-- Object spread `...range` of `formatCells`: spreading an object
contributes its fields, spreading `undefined`, `null` or another primitive
contributes none (the source always receives a plain object here; a string
would also spread index fields, which this model does not reproduce). -/
def jsSpread : JValue → List (String × JValue)
  | JValue.obj fs => fs
  | _ => []

/-- GoogleSheetsClient.formatCells. -/
def formatCells (b : Backend) (spreadsheetId sheetId range format : JValue) : JValue :=
  match b.batchUpdate spreadsheetId
      (JValue.arr [JValue.obj [("repeatCell", JValue.obj
        [("range", JValue.obj (("sheetId", sheetId) :: jsSpread range)),
         ("cell", JValue.obj [("userEnteredFormat", format)]),
         ("fields", JValue.str "userEnteredFormat")])]]) with
  | Except.ok d => d
  | Except.error m => errorPayload m

/-- GoogleSheetsClient.verifyConnection. The error branch's
`error.code || 'UNKNOWN_ERROR'` and `error.details || error.stack` are
modelled at the fallback values, since thrown errors are modelled by their
message alone. -/
def verifyConnection (b : Backend) : JValue :=
  match b.filesList (JValue.num 1) JValue.undef spreadsheetMimeQ "files(id, name)" with
  | Except.ok d =>
      JValue.obj
        [("connected", JValue.bool true),
         ("projectId", JValue.str b.projectId),
         ("timestamp", JValue.str b.nowISO),
         ("details", JValue.obj
           [("authType", JValue.str b.authType),
            ("apiVersion", JValue.str "v4"),
            ("spreadsheetCount", JValue.num ((jsLength (jget d "files")).getD 0))])]
  | Except.error m =>
      JValue.obj
        [("connected", JValue.bool false),
         ("projectId", JValue.str b.projectId),
         ("timestamp", JValue.str b.nowISO),
         ("error", JValue.obj
           [("message", JValue.str m),
            ("code", JValue.str "UNKNOWN_ERROR"),
            ("details", JValue.undef)])]

/-- A node of the JSON-Schema-like `inputSchema` trees of the tools array:
primitives carry their `type` (and optional `description`), arrays an
optional `items` schema, objects a property list plus the `required` name
list (an omitted `required` key is the empty list). `emptySchema` is the
bare `\x7b\x7d` item schema of `write_to_sheet`'s row arrays. -/
inductive SchemaNode where
  | prim (ty : String) (descr : Option String) : SchemaNode
  | arrayOf (descr : Option String) (items : Option SchemaNode) : SchemaNode
  | objectOf (descr : Option String) (properties : List (String × SchemaNode))
      (required : List String) : SchemaNode
  | emptySchema : SchemaNode

/-- One entry of the tools array of the `ListToolsRequestSchema` handler. -/
structure ToolDescriptor where
  name : String
  description : String
  inputSchema : SchemaNode

/-- The tools array of the `ListToolsRequestSchema` handler of index.ts,
transcribed descriptor by descriptor. -/
def tools : List ToolDescriptor :=
  [{ name := "google_sheets_create",
     description := "Create a new Google Sheet",
     inputSchema := SchemaNode.objectOf none
       [("title", SchemaNode.prim "string" (some "Title of the spreadsheet")),
        ("sheets", SchemaNode.arrayOf
          (some "Array of sheet names to create (optional)")
          (some (SchemaNode.prim "string" none)))]
       ["title"] },
   { name := "google_sheets_get",
     description := "Get a Google Sheet by ID",
     inputSchema := SchemaNode.objectOf none
       [("spreadsheetId", SchemaNode.prim "string" (some "ID of the spreadsheet to retrieve")),
        ("includeGridData", SchemaNode.prim "boolean"
          (some "Whether to include grid data (cell values)"))]
       ["spreadsheetId"] },
   { name := "google_sheets_update_values",
     description := "Update values in a Google Sheet",
     inputSchema := SchemaNode.objectOf none
       [("spreadsheetId", SchemaNode.prim "string" (some "ID of the spreadsheet to update")),
        ("range", SchemaNode.prim "string"
          (some "Range to update (e.g., \"Sheet1!A1:B2\")")),
        ("values", SchemaNode.arrayOf (some "2D array of values to update") none),
        ("valueInputOption", SchemaNode.prim "string"
          (some "How to interpret the values (RAW or USER_ENTERED)"))]
       ["spreadsheetId", "range", "values"] },
   { name := "google_sheets_append_values",
     description := "Append values to a Google Sheet",
     inputSchema := SchemaNode.objectOf none
       [("spreadsheetId", SchemaNode.prim "string" (some "ID of the spreadsheet to update")),
        ("range", SchemaNode.prim "string"
          (some "Range to append to (e.g., \"Sheet1!A1\")")),
        ("values", SchemaNode.arrayOf (some "2D array of values to append") none),
        ("valueInputOption", SchemaNode.prim "string"
          (some "How to interpret the values (RAW or USER_ENTERED)"))]
       ["spreadsheetId", "range", "values"] },
   { name := "google_sheets_get_values",
     description := "Get values from a Google Sheet",
     inputSchema := SchemaNode.objectOf none
       [("spreadsheetId", SchemaNode.prim "string" (some "ID of the spreadsheet to read")),
        ("range", SchemaNode.prim "string"
          (some "Range to read (e.g., \"Sheet1!A1:B2\")"))]
       ["spreadsheetId", "range"] },
   { name := "google_sheets_clear_values",
     description := "Clear values from a Google Sheet",
     inputSchema := SchemaNode.objectOf none
       [("spreadsheetId", SchemaNode.prim "string" (some "ID of the spreadsheet to clear")),
        ("range", SchemaNode.prim "string"
          (some "Range to clear (e.g., \"Sheet1!A1:B2\")"))]
       ["spreadsheetId", "range"] },
   { name := "google_sheets_add_sheet",
     description := "Add a new sheet to an existing spreadsheet",
     inputSchema := SchemaNode.objectOf none
       [("spreadsheetId", SchemaNode.prim "string" (some "ID of the spreadsheet to update")),
        ("sheetTitle", SchemaNode.prim "string" (some "Title of the new sheet"))]
       ["spreadsheetId", "sheetTitle"] },
   { name := "google_sheets_delete_sheet",
     description := "Delete a sheet from a spreadsheet",
     inputSchema := SchemaNode.objectOf none
       [("spreadsheetId", SchemaNode.prim "string" (some "ID of the spreadsheet")),
        ("sheetId", SchemaNode.prim "number" (some "ID of the sheet to delete"))]
       ["spreadsheetId", "sheetId"] },
   { name := "google_sheets_list",
     description := "List Google Sheets accessible to the authenticated user",
     inputSchema := SchemaNode.objectOf none
       [("pageSize", SchemaNode.prim "number"
          (some "Number of spreadsheets to return (default: 10)")),
        ("pageToken", SchemaNode.prim "string" (some "Token for pagination"))]
       [] },
   { name := "google_sheets_delete",
     description := "Delete a Google Sheet",
     inputSchema := SchemaNode.objectOf none
       [("spreadsheetId", SchemaNode.prim "string" (some "ID of the spreadsheet to delete"))]
       ["spreadsheetId"] },
   { name := "google_sheets_share",
     description := "Share a Google Sheet with specific users",
     inputSchema := SchemaNode.objectOf none
       [("spreadsheetId", SchemaNode.prim "string" (some "ID of the spreadsheet to share")),
        ("emailAddress", SchemaNode.prim "string" (some "Email address to share with")),
        ("role", SchemaNode.prim "string"
          (some "Role to assign (reader, writer, commenter)"))]
       ["spreadsheetId", "emailAddress"] },
   { name := "google_sheets_search",
     description := "Search for Google Sheets by title",
     inputSchema := SchemaNode.objectOf none
       [("query", SchemaNode.prim "string" (some "Search query for spreadsheet title")),
        ("pageSize", SchemaNode.prim "number"
          (some "Number of results to return (default: 10)")),
        ("pageToken", SchemaNode.prim "string" (some "Token for pagination"))]
       ["query"] },
   { name := "google_sheets_format_cells",
     description := "Format cells in a Google Sheet",
     inputSchema := SchemaNode.objectOf none
       [("spreadsheetId", SchemaNode.prim "string" (some "ID of the spreadsheet")),
        ("sheetId", SchemaNode.prim "number" (some "ID of the sheet")),
        ("range", SchemaNode.objectOf (some "Range to format")
          [("startRowIndex", SchemaNode.prim "number" none),
           ("endRowIndex", SchemaNode.prim "number" none),
           ("startColumnIndex", SchemaNode.prim "number" none),
           ("endColumnIndex", SchemaNode.prim "number" none)]
          ["startRowIndex", "endRowIndex", "startColumnIndex", "endColumnIndex"]),
        ("format", SchemaNode.objectOf (some "Format to apply") [] [])]
       ["spreadsheetId", "sheetId", "range", "format"] },
   { name := "google_sheets_verify_connection",
     description := "Verify connection with Google Sheets API and check credentials",
     inputSchema := SchemaNode.objectOf none [] [] },
   { name := "write_to_sheet",
     description := "Write data with headers and rows to a Google Sheet",
     inputSchema := SchemaNode.objectOf none
       [("spreadsheetId", SchemaNode.prim "string" (some "ID of the spreadsheet to write to")),
        ("sheetName", SchemaNode.prim "string" (some "Name of the sheet to write to")),
        ("data", SchemaNode.objectOf (some "Data to write to the sheet")
          [("headers", SchemaNode.arrayOf (some "Array of column headers")
             (some (SchemaNode.prim "string" none))),
           ("rows", SchemaNode.arrayOf (some "Array of row data (2D array)")
             (some (SchemaNode.arrayOf none (some SchemaNode.emptySchema))))]
          ["headers", "rows"]),
        ("clearExisting", SchemaNode.prim "boolean"
          (some "Whether to clear existing data before writing (default: false)"))]
       ["spreadsheetId", "sheetName", "data"] }]

/-- The names advertised by the catalogue, in order. -/
def toolNames : List String := tools.map ToolDescriptor.name

/-- The `ListToolsRequestSchema` handler: it reads no mutable state and
returns the freshly built constant array, so it is embedded as a function
that leaves an arbitrary ambient state `s` untouched and yields the
catalogue. -/
def listTools {σ : Type} (s : σ) : σ × List ToolDescriptor :=
  (s, tools)

/-- The `arguments` mapping of a call request
(`request.params.arguments ?? \x7b\x7d`). -/
abbrev Args := List (String × JValue)

/-- Argument extraction `args.k`: an absent key is `undefined`. -/
def Args.get (a : Args) (k : String) : JValue :=
  (a.lookup k).getD JValue.undef

/-- One `{ type: 'text', text: ... }` content block. -/
structure TextBlock where
  type : String
  text : JValue

/-- The value returned to the transport by the `CallToolRequestSchema`
handler: a content list and the optional `isError` flag (`none` when the
source's return object carries no `isError` key). -/
structure ResultEnvelope where
  content : List TextBlock
  isError : Option Bool

/-- The success-path wrapper of every dispatch case:
`{ content: [{ type: 'text', text: JSON.stringify(result, null, 2) }] }`. -/
def textEnvelope (result : JValue) : ResultEnvelope :=
  { content := [{ type := "text", text := jrender result }], isError := none }

/-- The body of the `try` block of the `CallToolRequestSchema` handler: the
switch on `request.params.name`. An exception thrown inside it is an
`Except.error` carrying the error's message:
the `default` case throws `McpError(ErrorCode.MethodNotFound, ...)`, whose
message (formatted by the MCP SDK as `MCP error <code>: <text>` with
`MethodNotFound = -32601`) embeds the offending name; the `write_to_sheet`
case invokes `this.googleSheets.writeToSheet`, a method the
`GoogleSheetsClient` class does not define, so the call itself raises
`TypeError: this.googleSheets.writeToSheet is not a function` before any
backend work happens. Every other case calls a client method that catches
its own failures, so it cannot throw. -/
def dispatch (b : Backend) (name : String) (args : Args) : Except String ResultEnvelope :=
  if name = "google_sheets_create" then
    Except.ok (textEnvelope (createSpreadsheet b (args.get "title") (args.get "sheets")))
  else if name = "google_sheets_get" then
    Except.ok (textEnvelope (getSpreadsheet b (args.get "spreadsheetId")
      (args.get "includeGridData")))
  else if name = "google_sheets_update_values" then
    Except.ok (textEnvelope (updateValues b (args.get "spreadsheetId") (args.get "range")
      (args.get "values") (args.get "valueInputOption")))
  else if name = "google_sheets_append_values" then
    Except.ok (textEnvelope (appendValues b (args.get "spreadsheetId") (args.get "range")
      (args.get "values") (args.get "valueInputOption")))
  else if name = "google_sheets_get_values" then
    Except.ok (textEnvelope (getValues b (args.get "spreadsheetId") (args.get "range")))
  else if name = "google_sheets_clear_values" then
    Except.ok (textEnvelope (clearValues b (args.get "spreadsheetId") (args.get "range")))
  else if name = "google_sheets_add_sheet" then
    Except.ok (textEnvelope (addSheet b (args.get "spreadsheetId") (args.get "sheetTitle")))
  else if name = "google_sheets_delete_sheet" then
    Except.ok (textEnvelope (deleteSheet b (args.get "spreadsheetId") (args.get "sheetId")))
  else if name = "google_sheets_list" then
    Except.ok (textEnvelope (listSpreadsheets b (args.get "pageSize") (args.get "pageToken")))
  else if name = "google_sheets_delete" then
    Except.ok (textEnvelope (deleteSpreadsheet b (args.get "spreadsheetId")))
  else if name = "google_sheets_share" then
    Except.ok (textEnvelope (shareSpreadsheet b (args.get "spreadsheetId")
      (args.get "emailAddress") (args.get "role")))
  else if name = "google_sheets_search" then
    Except.ok (textEnvelope (searchSpreadsheets b (args.get "query") (args.get "pageSize")
      (args.get "pageToken")))
  else if name = "google_sheets_format_cells" then
    Except.ok (textEnvelope (formatCells b (args.get "spreadsheetId") (args.get "sheetId")
      (args.get "range") (args.get "format")))
  else if name = "google_sheets_verify_connection" then
    Except.ok (textEnvelope (verifyConnection b))
  else if name = "write_to_sheet" then
    Except.error "this.googleSheets.writeToSheet is not a function"
  else
    Except.error ("MCP error -32601: Unknown tool: " ++ name)

/-- The `CallToolRequestSchema` handler: the `try`/`catch` around `dispatch`.
The catch block turns any thrown error into
`{ content: [{ type: 'text', text: "Google Sheets API error: " + message }], isError: true }`. -/
def handleCall (b : Backend) (name : String) (args : Args) : ResultEnvelope :=
  match dispatch b name args with
  | Except.ok env => env
  | Except.error m =>
      { content := [{ type := "text", text := JValue.str ("Google Sheets API error: " ++ m) }],
        isError := some true }

/-- Top-level required-argument list declared by a descriptor's input
schema. -/
def requiredOf (d : ToolDescriptor) : List String :=
  match d.inputSchema with
  | SchemaNode.objectOf _ _ req => req
  | _ => []

/-- Names of the fields a descriptor's input schema declares. -/
def propNamesOf (d : ToolDescriptor) : List String :=
  match d.inputSchema with
  | SchemaNode.objectOf _ props _ => props.map Prod.fst
  | _ => []

/-- Required-name list of the object-typed field `p` nested inside a
descriptor's input schema. -/
def nestedRequiredOf (d : ToolDescriptor) (p : String) : List String :=
  match d.inputSchema with
  | SchemaNode.objectOf _ props _ =>
      match props.lookup p with
      | some (SchemaNode.objectOf _ _ req) => req
      | _ => []
  | _ => []

/-- Equality of two name lists as sets. -/
def sameSet (a b : List String) : Bool :=
  a.all b.contains && b.all a.contains

/-- The descriptors of the catalogue carrying a given name. -/
def descriptorsNamed (n : String) : List ToolDescriptor :=
  tools.filter (fun d => d.name == n)

/-- Spelled out from the specification's external-interface table, which
lists tools by their short names: the catalogue advertises each of them with
the `google_sheets_` prefix, except `write_to_sheet`. -/
def specToolName (short : String) : String :=
  if short = "write_to_sheet" then short else "google_sheets_" ++ short

/-- The required-arguments table of the specification's external-interface
section, transcribed row by row (spec side of the refinement comparison for
the catalogue; every definition above this one is translated from the
source). -/
def specRequiredTable : List (String × List String) :=
  [("create", ["title"]),
   ("get", ["spreadsheetId"]),
   ("update_values", ["spreadsheetId", "range", "values"]),
   ("append_values", ["spreadsheetId", "range", "values"]),
   ("get_values", ["spreadsheetId", "range"]),
   ("clear_values", ["spreadsheetId", "range"]),
   ("add_sheet", ["spreadsheetId", "sheetTitle"]),
   ("delete_sheet", ["spreadsheetId", "sheetId"]),
   ("list", []),
   ("delete", ["spreadsheetId"]),
   ("share", ["spreadsheetId", "emailAddress"]),
   ("search", ["query"]),
   ("format_cells", ["spreadsheetId", "sheetId", "range", "format"]),
   ("verify_connection", []),
   ("write_to_sheet", ["spreadsheetId", "sheetName", "data"])]

/-- One row of the spec table holds of the catalogue: exactly one descriptor
carries the row's name, its required set equals the row's argument set, and
each required argument is among the declared fields (all other declared
fields are, by absence from `required`, optional). -/
def rowMatches (row : String × List String) : Bool :=
  let n := specToolName row.1
  ((descriptorsNamed n).length == 1) &&
  (descriptorsNamed n).all (fun d =>
    sameSet (requiredOf d) row.2 && row.2.all (propNamesOf d).contains)

/-- The whole spec table holds, including the nested required sets of
`format_cells`' `range` field and `write_to_sheet`'s `data` field. -/
def catalogueMatchesSpec : Bool :=
  specRequiredTable.all rowMatches &&
  (descriptorsNamed "google_sheets_format_cells").all (fun d =>
    sameSet (nestedRequiredOf d "range")
      ["startRowIndex", "endRowIndex", "startColumnIndex", "endColumnIndex"]) &&
  (descriptorsNamed "write_to_sheet").all (fun d =>
    sameSet (nestedRequiredOf d "data") ["headers", "rows"])

/-- A concrete backend on which every remote call succeeds with a `null`
payload; used to evaluate the gateway at concrete inputs. -/
def oracleB : Backend :=
  { spreadsheetsCreate := fun _ => Except.ok JValue.null,
    spreadsheetsGet := fun _ _ => Except.ok JValue.null,
    valuesUpdate := fun _ _ _ _ => Except.ok JValue.null,
    valuesAppend := fun _ _ _ _ => Except.ok JValue.null,
    valuesGet := fun _ _ => Except.ok JValue.null,
    valuesClear := fun _ _ => Except.ok JValue.null,
    batchUpdate := fun _ _ => Except.ok JValue.null,
    filesList := fun _ _ _ _ => Except.ok JValue.null,
    filesDelete := fun _ => Except.ok JValue.null,
    permissionsCreate := fun _ _ => Except.ok JValue.null,
    projectId := "demo-project",
    authType := "API Key",
    nowISO := "2026-01-01T00:00:00.000Z" }

/-- A concrete backend whose values-update endpoint rejects every request the
way the remote service rejects an unknown spreadsheet id `X`: the thrown
error's message names the offending id. -/
def rejectingBackend : Backend :=
  { oracleB with valuesUpdate := fun _ _ _ _ =>
      Except.error "Requested entity was not found: X" }

/-- The error text the gateway produces for every `write_to_sheet` call. -/
def wtsErrorText : String :=
  "Google Sheets API error: this.googleSheets.writeToSheet is not a function"

/-- The envelope the catch block of the `CallToolRequestSchema` handler
produces for a thrown error with message `m`. -/
def errEnvelope (m : String) : ResultEnvelope :=
  { content := [{ type := "text", text := JValue.str ("Google Sheets API error: " ++ m) }],
    isError := some true }

/-- Outcome shape of the dispatch switch: a `textEnvelope` success or a
thrown message. -/
def envShape (e : Except String ResultEnvelope) : Prop :=
  (∃ j, e = Except.ok (textEnvelope j)) ∨ (∃ m, e = Except.error m)

/-- A switch case preserves the outcome shape. -/
theorem envShape_ite (c : Prop) [Decidable c] (x : JValue)
    (rest : Except String ResultEnvelope) (h : envShape rest) :
    envShape (if c then Except.ok (textEnvelope x) else rest) := by
  by_cases hc : c
  · rw [if_pos hc]; exact Or.inl ⟨x, rfl⟩
  · rw [if_neg hc]; exact h

/-- Every branch of the dispatch switch either succeeds with a
`textEnvelope` or throws a message. -/
theorem dispatch_shape (b : Backend) (name : String) (args : Args) :
    envShape (dispatch b name args) := by
  unfold dispatch
  apply envShape_ite; apply envShape_ite; apply envShape_ite; apply envShape_ite
  apply envShape_ite; apply envShape_ite; apply envShape_ite; apply envShape_ite
  apply envShape_ite; apply envShape_ite; apply envShape_ite; apply envShape_ite
  apply envShape_ite; apply envShape_ite
  by_cases h : name = "write_to_sheet"
  · rw [if_pos h]; exact Or.inr ⟨_, rfl⟩
  · rw [if_neg h]; exact Or.inr ⟨_, rfl⟩

/-- C2: for every backend and every arguments mapping, a call to the tool
`write_to_sheet` returns the error envelope with `isError` true and text
beginning `Google Sheets API error:` — never a success envelope — because
`GoogleSheetsClient` defines no `writeToSheet` method, so the dispatched
invocation raises a `TypeError` that the gateway's catch block converts. -/
theorem write_to_sheet_always_fails (b : Backend) (args : Args) :
    handleCall b "write_to_sheet" args =
      errEnvelope "this.googleSheets.writeToSheet is not a function" := rfl

/-- C3: for every backend, tool name and arguments mapping, `handleCall`
returns a `ResultEnvelope` holding exactly one text block, with `isError`
either absent or `true`; no exception escapes the gateway boundary (the
handler is a total function into `ResultEnvelope`). -/
theorem handleCall_always_envelope (b : Backend) (name : String) (args : Args) :
    ∃ t, (handleCall b name args).content = [{ type := "text", text := t }] ∧
      ((handleCall b name args).isError = none ∨
       (handleCall b name args).isError = some true) := by
  have h := dispatch_shape b name args
  unfold handleCall
  rcases h with ⟨j, hj⟩ | ⟨m, hm⟩
  · rw [hj]; exact ⟨jrender j, rfl, Or.inl rfl⟩
  · rw [hm]
    exact ⟨JValue.str ("Google Sheets API error: " ++ m), rfl, Or.inr rfl⟩

/-- C4: the catalogue advertises 15 names, and for every tool name outside
it `handleCall` (with any backend and arguments) returns the `isError := true`
envelope whose text mentions the offending name — the message is a prefix
followed by the name itself — and does not throw. -/
theorem unknown_tool_is_error : toolNames.length = 15 ∧
    ∀ (b : Backend) (name : String) (args : Args), name ∉ toolNames →
      handleCall b name args = errEnvelope ("MCP error -32601: Unknown tool: " ++ name) ∧
      ∃ pre, ("Google Sheets API error: MCP error -32601: Unknown tool: " ++ name)
        = pre ++ name := by
  refine ⟨rfl, ?_⟩
  intro b name args h
  have e : toolNames =
    ["google_sheets_create", "google_sheets_get", "google_sheets_update_values",
     "google_sheets_append_values", "google_sheets_get_values",
     "google_sheets_clear_values", "google_sheets_add_sheet",
     "google_sheets_delete_sheet", "google_sheets_list", "google_sheets_delete",
     "google_sheets_share", "google_sheets_search", "google_sheets_format_cells",
     "google_sheets_verify_connection", "write_to_sheet"] := rfl
  rw [e] at h
  simp only [List.mem_cons, List.not_mem_nil, or_false, not_or] at h
  obtain ⟨h1, h2, h3, h4, h5, h6, h7, h8, h9, h10, h11, h12, h13, h14, h15⟩ := h
  refine ⟨?_, "Google Sheets API error: MCP error -32601: Unknown tool: ", ?_⟩
  · unfold handleCall dispatch
    rw [if_neg h1, if_neg h2, if_neg h3, if_neg h4, if_neg h5, if_neg h6,
        if_neg h7, if_neg h8, if_neg h9, if_neg h10, if_neg h11, if_neg h12,
        if_neg h13, if_neg h14, if_neg h15]
    rfl
  · rfl

/-- Witness for C4 at the concrete unknown name `no_such_tool` with the
always-succeeding backend and empty arguments. -/
theorem unknown_tool_is_error_witness :
    ("no_such_tool" ∉ toolNames) ∧
    handleCall oracleB "no_such_tool" [] =
      errEnvelope ("MCP error -32601: Unknown tool: " ++ "no_such_tool") :=
  ⟨by decide, (unknown_tool_is_error.2 oracleB "no_such_tool" [] (by decide)).1⟩

/-- C1 counterexample: at the spec's end-to-end scenario 2 — tool
`update_values`, arguments `spreadsheetId "X"`, `range "Sheet1!A1:B1"`,
`values [["a","b"]]`, against a backend that rejects the spreadsheet id with
a message naming `X` — the gateway's reply does NOT set `isError` to true:
`updateValues` catches the rejection and returns an `{error}` payload, so the
envelope takes the success shape with `isError` absent, refuting the claim
that the caller can distinguish failure by the `isError` flag alone. -/
theorem update_values_failure_not_flagged :
    rejectingBackend.valuesUpdate (JValue.str "X") (JValue.str "Sheet1!A1:B1")
        (JValue.str "USER_ENTERED") (JValue.arr [JValue.arr [JValue.str "a", JValue.str "b"]])
      = Except.error "Requested entity was not found: X" ∧
    (handleCall rejectingBackend "google_sheets_update_values"
        [("spreadsheetId", JValue.str "X"), ("range", JValue.str "Sheet1!A1:B1"),
         ("values", JValue.arr [JValue.arr [JValue.str "a", JValue.str "b"]])]).isError
      ≠ some true ∧
    (handleCall rejectingBackend "google_sheets_update_values"
        [("spreadsheetId", JValue.str "X"), ("range", JValue.str "Sheet1!A1:B1"),
         ("values", JValue.arr [JValue.arr [JValue.str "a", JValue.str "b"]])]).isError
      = none :=
  ⟨rfl, by decide, rfl⟩

/-- C1 amended: when the backend rejects an `update_values` call (throwing a
message `m`, as the remote service does for an unknown spreadsheet id), the
gateway returns an envelope WITHOUT the `isError` flag whose single text
block serializes the `{error: m}` payload — the error message (carrying the
offending spreadsheet id) reaches the caller only inside the text, not via
`isError`. -/
theorem update_values_failure_payload (b : Backend) (sid rng vals : JValue) (m : String)
    (h : b.valuesUpdate sid rng (JValue.str "USER_ENTERED") vals = Except.error m) :
    handleCall b "google_sheets_update_values"
        [("spreadsheetId", sid), ("range", rng), ("values", vals)] =
      textEnvelope (errorPayload m) := by
  unfold handleCall
  have e : dispatch b "google_sheets_update_values"
      [("spreadsheetId", sid), ("range", rng), ("values", vals)] =
      Except.ok (textEnvelope (updateValues b sid rng vals JValue.undef)) := rfl
  rw [e]
  unfold updateValues
  have e2 : jsDefault JValue.undef (JValue.str "USER_ENTERED") =
      JValue.str "USER_ENTERED" := rfl
  rw [e2, h]

/-- Witness for the amended C1 at the concrete rejecting backend of
scenario 2. -/
theorem update_values_failure_payload_witness :
    rejectingBackend.valuesUpdate (JValue.str "X") (JValue.str "Sheet1!A1:B1")
        (JValue.str "USER_ENTERED") (JValue.arr [JValue.arr [JValue.str "a", JValue.str "b"]])
      = Except.error "Requested entity was not found: X" ∧
    handleCall rejectingBackend "google_sheets_update_values"
        [("spreadsheetId", JValue.str "X"), ("range", JValue.str "Sheet1!A1:B1"),
         ("values", JValue.arr [JValue.arr [JValue.str "a", JValue.str "b"]])] =
      textEnvelope (errorPayload "Requested entity was not found: X") :=
  ⟨rfl, update_values_failure_payload rejectingBackend (JValue.str "X")
    (JValue.str "Sheet1!A1:B1") (JValue.arr [JValue.arr [JValue.str "a", JValue.str "b"]])
    "Requested entity was not found: X" rfl⟩

/-- C5 counterexample: the error text of a failed `write_to_sheet` dispatch
is `Google Sheets API error: <message>` — a fixed prefix; it does not take
the form `<operation>: <message>` naming the failing operation (the text does
not begin with the tool name `write_to_sheet`). -/
theorem error_prefix_not_operation :
    (handleCall oracleB "write_to_sheet" []).content =
      [{ type := "text", text := JValue.str wtsErrorText }] ∧
    (handleCall oracleB "write_to_sheet" []).isError = some true ∧
    wtsErrorText.data.take 14 ≠ "write_to_sheet".data ∧
    wtsErrorText.data.take 23 = "Google Sheets API error".data :=
  ⟨rfl, rfl, by decide, by decide⟩

/-- C5 amended: every error envelope the gateway returns carries a single
text block of the form `Google Sheets API error: <message>` — the failure
message prefixed with the gateway's fixed error context, not with the name
of the failing operation. -/
theorem error_text_fixed_prefix (b : Backend) (name : String) (args : Args)
    (h : (handleCall b name args).isError = some true) :
    ∃ m, handleCall b name args = errEnvelope m := by
  have hs := dispatch_shape b name args
  rcases hs with ⟨j, hj⟩ | ⟨m, hm⟩
  · exfalso
    unfold handleCall at h
    rw [hj] at h
    exact Option.noConfusion h
  · exact ⟨m, by unfold handleCall; rw [hm]; rfl⟩

/-- Witness for the amended C5 at a concrete erroring call. -/
theorem error_text_fixed_prefix_witness :
    (handleCall oracleB "bogus_tool" []).isError = some true ∧
    ∃ m, handleCall oracleB "bogus_tool" [] = errEnvelope m :=
  ⟨rfl, error_text_fixed_prefix oracleB "bogus_tool" [] rfl⟩

/-- C6: evaluating the gateway at the spec's partial-failure scenario — a
`write_to_sheet` call with `clearExisting` true — shows the code never
reaches any clear or write step: the dispatch raises the missing-method
`TypeError` immediately and the call reports only that error, because the
backend client class implements no `writeToSheet` operation at all. -/
theorem write_to_sheet_scenario_never_clears :
    handleCall oracleB "write_to_sheet"
        [("spreadsheetId", JValue.str "S"), ("sheetName", JValue.str "Sheet1"),
         ("data", JValue.obj [("headers", JValue.arr [JValue.str "h"]),
            ("rows", JValue.arr [JValue.arr [JValue.str "v"]])]),
         ("clearExisting", JValue.bool true)] =
      errEnvelope "this.googleSheets.writeToSheet is not a function" := rfl

/-- C7: every row of the spec's external-interface table matches the
catalogue — exactly one descriptor per row name, its required set equal to
the row's argument set and contained in the declared fields (every other
declared field optional by absence from `required`), with the nested
required sets of `format_cells`' `range` and `write_to_sheet`'s `data`
fields as listed. -/
theorem catalogue_matches_spec_table : catalogueMatchesSpec = true := rfl

/-- C8: the `name` field is unique across the advertised descriptor
sequence. -/
theorem tool_names_unique : toolNames.Nodup := by decide

/-- C9: the catalogue-listing operation is side-effect-free and
deterministic — it leaves any ambient state unchanged and returns the same
full ordered descriptor sequence (the constant `tools`) on every
invocation. -/
theorem listTools_pure_deterministic :
    ∀ (σ : Type) (s : σ), listTools s = (s, tools) ∧
      ∀ (τ : Type) (t : τ), (listTools s).2 = (listTools t).2 :=
  fun _ _ => ⟨rfl, fun _ _ => rfl⟩

/-- C10: omitting a defaulted optional argument equals passing its default:
for every backend and arguments, `update_values` and `append_values` without
`valueInputOption` equal the same call with `USER_ENTERED`; `share` without
`role` equals `role = "reader"`; `list` and `search` without `pageSize`
equal `pageSize = 10`; `get` without `includeGridData` equals
`includeGridData = false`. -/
theorem omitted_defaults_equal (b : Backend) (sid rng vals email q tok : JValue) :
    (handleCall b "google_sheets_update_values"
        [("spreadsheetId", sid), ("range", rng), ("values", vals)] =
      handleCall b "google_sheets_update_values"
        [("spreadsheetId", sid), ("range", rng), ("values", vals),
         ("valueInputOption", JValue.str "USER_ENTERED")]) ∧
    (handleCall b "google_sheets_append_values"
        [("spreadsheetId", sid), ("range", rng), ("values", vals)] =
      handleCall b "google_sheets_append_values"
        [("spreadsheetId", sid), ("range", rng), ("values", vals),
         ("valueInputOption", JValue.str "USER_ENTERED")]) ∧
    (handleCall b "google_sheets_share"
        [("spreadsheetId", sid), ("emailAddress", email)] =
      handleCall b "google_sheets_share"
        [("spreadsheetId", sid), ("emailAddress", email),
         ("role", JValue.str "reader")]) ∧
    (handleCall b "google_sheets_list" [("pageToken", tok)] =
      handleCall b "google_sheets_list"
        [("pageSize", JValue.num 10), ("pageToken", tok)]) ∧
    (handleCall b "google_sheets_search" [("query", q), ("pageToken", tok)] =
      handleCall b "google_sheets_search"
        [("query", q), ("pageSize", JValue.num 10), ("pageToken", tok)]) ∧
    (handleCall b "google_sheets_get" [("spreadsheetId", sid)] =
      handleCall b "google_sheets_get"
        [("spreadsheetId", sid), ("includeGridData", JValue.bool false)]) :=
  ⟨rfl, rfl, rfl, rfl, rfl, rfl⟩

end GSheets
